import Mathlib

/-!
Shallow embedding of the `dimingo/text-editor` application (`src/src/main.rs`),
a minimal iced-based desktop text editor.  The controller state (`Editor`),
its message type (`Message`) and the pure part of `Editor::update` are
translated directly from the source; the external collaborators (the iced
`text_editor::Content` buffer widget, the native file dialogs and the
filesystem) are modelled from the spec as explicit data: the buffer as text
plus a cursor offset, dialogs as `Option String` results, and the filesystem
as explicit read/write functions passed to the async helpers.
-/

namespace TextEditor

/-- Coarse classification of filesystem failures, embedding `std::io::ErrorKind`
as used by the source (`Error::IOFailed(io::ErrorKind)`). -/
inductive IOErrorKind
  | NotFound
  | PermissionDenied
  | OtherKind
deriving DecidableEq

/-- Modelled from the spec: the human-readable failure description produced by
`io::ErrorKind`'s Display implementation, rendered by the status bar via
`error.to_string()`. -/
def IOErrorKind.description : IOErrorKind → String
  | .NotFound => "entity not found"
  | .PermissionDenied => "permission denied"
  | .OtherKind => "other error"

/-- Embeds `enum Error { DialogClose, IOFailed(io::ErrorKind) }` from
`src/src/main.rs`. -/
inductive Error
  | DialogClose
  | IOFailed (kind : IOErrorKind)
deriving DecidableEq

/-- Embeds `iced::highlighter::Theme` as carried in the `theme` field; the
constructors are the variants the pick list offers. -/
inductive Theme
  | SolarizedDark
  | Base16Eighties
  | Base16Mocha
  | Base16Ocean
  | InspiredGitHub
deriving DecidableEq

/-- Modelled from the spec: a single edit action applied to the buffer
(insert / delete / move-cursor per action semantics); stands for the opaque
`iced::widget::text_editor::Action`. -/
inductive Action
  | insert (ch : Char)
  | backspace
  | moveLeft
  | moveRight
deriving DecidableEq

/-- Modelled from the spec: the buffer is the in-memory editable text content
plus its cursor position; stands for the opaque
`iced::widget::text_editor::Content`, with the cursor kept as a character
offset into the text. -/
structure Content where
  text : String
  cursor : Nat
deriving DecidableEq

/-- Embeds `text_editor::Content::new()`: an empty buffer. -/
def Content.new : Content := { text := "", cursor := 0 }

/-- Embeds `text_editor::Content::with(&content)`: a buffer holding exactly the
given text, cursor at the start. -/
def Content.withText (s : String) : Content := { text := s, cursor := 0 }

/-- Modelled from the spec: applying one edit action to the buffer
(`Content::edit`); inserts or deletes at the cursor, or moves the cursor. -/
def Content.edit (c : Content) (a : Action) : Content :=
  match a with
  | .insert ch =>
      { text := String.mk (c.text.toList.take c.cursor ++ ch :: c.text.toList.drop c.cursor),
        cursor := c.cursor + 1 }
  | .backspace =>
      if c.cursor = 0 then c
      else
        { text := String.mk (c.text.toList.take (c.cursor - 1) ++ c.text.toList.drop c.cursor),
          cursor := c.cursor - 1 }
  | .moveLeft => { c with cursor := c.cursor - 1 }
  | .moveRight => { c with cursor := min (c.cursor + 1) c.text.toList.length }

/-- Modelled from the spec: `Content::cursor_position`, the 0-indexed
(line, column) implied by the cursor offset. -/
def Content.cursor_position (c : Content) : Nat × Nat :=
  let before := c.text.toList.take c.cursor
  (before.count '\n', (before.reverse.takeWhile (fun ch => ch ≠ '\n')).length)

/-- Embeds `struct Editor` from `src/src/main.rs`: the single application
state — optional file path, text buffer, optional last error, theme.
Filesystem paths are modelled as strings. -/
structure Editor where
  path : Option String
  content : Content
  error : Option Error
  theme : Theme
deriving DecidableEq

/-- Embeds `enum Message` from `src/src/main.rs`; `Result` payloads become
`Except Error`. -/
inductive Message
  | Edit (a : Action)
  | Open
  | Save
  | New
  | FileOpened (r : Except Error (String × String))
  | FileSaved (r : Except Error String)
  | ThemeSelected (t : Theme)

/-- The `iced::Command` value returned by `Editor::update`: either no command,
or one of the two asynchronous operations the controller issues
(`pick_file` feeding `Message::FileOpened`, `save_file` feeding
`Message::FileSaved`), with the data captured at issue time. -/
inductive Cmd
  | none
  | performOpen
  | performSave (path : Option String) (content : String)
deriving DecidableEq

/-- Embeds `Editor::update` from `src/src/main.rs` (lines 52–99): the pure
state transition plus the command it returns. -/
def Editor.update (s : Editor) (m : Message) : Editor × Cmd :=
  match m with
  | .Edit a => ({ s with error := Option.none, content := s.content.edit a }, .none)
  | .New => ({ s with path := Option.none, content := Content.new }, .none)
  | .Open => (s, .performOpen)
  | .Save => (s, .performSave s.path s.content.text)
  | .FileSaved (.ok p) => ({ s with path := some p }, .none)
  | .FileSaved (.error e) => ({ s with error := some e }, .none)
  | .FileOpened (.ok (p, c)) => ({ s with path := some p, content := Content.withText c }, .none)
  | .FileOpened (.error e) => ({ s with error := some e }, .none)
  | .ThemeSelected t => ({ s with theme := t }, .none)

/-- Embeds `async fn load_file`: reads the whole file at `path`; a read failure
of kind `k` becomes `Error::IOFailed(k)`, success yields the path and the
content.  The filesystem read is modelled as an explicit function. -/
def load_file (path : String) (readFile : String → Except IOErrorKind String) :
    Except Error (String × String) :=
  match readFile path with
  | .error k => .error (.IOFailed k)
  | .ok c => .ok (path, c)

/-- Embeds `async fn pick_file`: the native open dialog is modelled as its
result (`none` when the user cancels, which yields `Error::DialogClose`);
a chosen path is handed to `load_file`. -/
def pick_file (openDialog : Option String) (readFile : String → Except IOErrorKind String) :
    Except Error (String × String) :=
  match openDialog with
  | Option.none => .error .DialogClose
  | some p => load_file p readFile

/-- The write the save operation performed against the filesystem: which path
and which exact bytes. -/
structure WriteOp where
  path : String
  content : String
deriving DecidableEq

/-- Embeds `async fn save_file` (lines 170–180): with no current path the save
dialog is consulted (cancellation yields `Error::DialogClose` and nothing is
written); with a path, the content is written wholesale to it; a failing write
of kind `k` yields `Error::IOFailed(k)`.  The dialog is modelled as its result
and the filesystem as a write function (`Option.none` meaning success); the
second component records the write that was issued, if any. -/
def save_file (path : Option String) (content : String) (saveDialog : Option String)
    (fsWrite : String → String → Option IOErrorKind) :
    Except Error String × Option WriteOp :=
  match path with
  | some p =>
      (match fsWrite p content with
       | some k => (.error (.IOFailed k), some ⟨p, content⟩)
       | Option.none => (.ok p, some ⟨p, content⟩))
  | Option.none =>
      match saveDialog with
      | Option.none => (.error .DialogClose, Option.none)
      | some p =>
          match fsWrite p content with
          | some k => (.error (.IOFailed k), some ⟨p, content⟩)
          | Option.none => (.ok p, some ⟨p, content⟩)

/-- Splits a character list at every occurrence of the separator, keeping
empty pieces (the analogue of `String.splitOn` for one-character
separators). -/
def splitOnChar (sep : Char) : List Char → List (List Char)
  | [] => [[]]
  | c :: rest =>
      let r := splitOnChar sep rest
      if c = sep then [] :: r
      else
        match r with
        | [] => [c] :: []
        | h :: t => (c :: h) :: t

/-- Embeds the file-name step of `std::path::Path::extension` for the
string-modelled paths: the last non-empty component, unless it is `.` or
`..`. -/
def fileName (p : String) : Option String :=
  let c := ((splitOnChar '/' p.toList).filter (fun s => s ≠ [])).getLastD []
  if c = [] ∨ c = ['.'] ∨ c = ['.', '.'] then Option.none else some (String.mk c)

/-- Embeds `std::path::Path::extension` for the string-modelled paths: the part
of the file name after its last dot, none when there is no dot or the only dot
leads a hidden file name. -/
def extension (p : String) : Option String :=
  match fileName p with
  | Option.none => Option.none
  | some name =>
      match splitOnChar '.' name.toList with
      | [] => Option.none
      | [_] => Option.none
      | [[], _] => Option.none
      | parts => some (String.mk (parts.getLastD []))

/-- Embeds the highlighter-settings expression in `Editor::view` (line 116):
`self.path.as_ref().and_then(|path| path.extension()?.to_str()).unwrap_or("rs")`
— the language key handed to the syntax highlighter. -/
def extensionKey (s : Editor) : String :=
  (s.path.bind extension).getD "rs"

/-- Modelled from the spec: the external syntax highlighter resolves the
language key it is handed to a language, defaulting to a fallback language
when the key is unrecognized.  Its implementation is out of scope; only the
key selection lives in `src/`. -/
def highlightLanguage (recognized : List String) (fallback : String) (key : String) : String :=
  if key ∈ recognized then key else fallback

/-- Embeds the `status` expression of the status bar in `Editor::view` (lines
119–128): an `IOFailed` error shows its failure description; otherwise the
current path is shown if set, else the placeholder `New File`. -/
def statusText (s : Editor) : String :=
  match s.error with
  | some (.IOFailed k) => k.description
  | _ =>
      match s.path with
      | some p => p
      | Option.none => "New File"

/-- Embeds the cursor-position text of the status bar (line 134):
1-indexed display of the 0-indexed internal position. -/
def positionText (s : Editor) : String :=
  let lc := s.content.cursor_position
  toString (lc.1 + 1) ++ ":" ++ toString (lc.2 + 1)

/-- Embeds the state constructed in `Editor::new`: no path, empty buffer, no
error, Solarized Dark theme. -/
def initialEditor : Editor :=
  { path := Option.none, content := Content.new, error := Option.none, theme := .SolarizedDark }

/-- C1: for every prior editor state (in particular every prior `lastError`)
and every edit action `a`, processing `Edit(a)` sets `lastError` to `None` and
applies `a` to the buffer. -/
theorem edit_clears_error_and_applies (s : Editor) (a : Action) :
    ((s.update (.Edit a)).1.error = Option.none) ∧
    ((s.update (.Edit a)).1.content = s.content.edit a) :=
  ⟨rfl, rfl⟩

/-- C2: for every prior editor state, processing `FileOpened(Ok(p, c))` sets
`path` to `Some p` and replaces the buffer wholesale with `c` — the new buffer
is `Content::with(c)`, whose text is exactly `c`, independent of the previous
buffer. -/
theorem fileOpened_ok_sets_path_and_replaces_buffer (s : Editor) (p c : String) :
    ((s.update (.FileOpened (.ok (p, c)))).1.path = some p) ∧
    ((s.update (.FileOpened (.ok (p, c)))).1.content = Content.withText c) ∧
    ((s.update (.FileOpened (.ok (p, c)))).1.content.text = c) :=
  ⟨rfl, rfl, rfl⟩

/-- C3: for every prior editor state and error `e`, processing
`FileOpened(Err(e))` or `FileSaved(Err(e))` sets `lastError` to `Some e` and
leaves `path`, `buffer` and `theme` unchanged. -/
theorem failed_open_save_records_error_only (s : Editor) (e : Error) :
    (((s.update (.FileOpened (.error e))).1.error = some e) ∧
     ((s.update (.FileOpened (.error e))).1.path = s.path) ∧
     ((s.update (.FileOpened (.error e))).1.content = s.content) ∧
     ((s.update (.FileOpened (.error e))).1.theme = s.theme)) ∧
    (((s.update (.FileSaved (.error e))).1.error = some e) ∧
     ((s.update (.FileSaved (.error e))).1.path = s.path) ∧
     ((s.update (.FileSaved (.error e))).1.content = s.content) ∧
     ((s.update (.FileSaved (.error e))).1.theme = s.theme)) :=
  ⟨⟨rfl, rfl, rfl, rfl⟩, ⟨rfl, rfl, rfl, rfl⟩⟩

/-- C4: after `FileOpened(Ok(p, c))`, issuing `Save` with the buffer
unmodified extracts exactly `c` from the buffer and targets path `p`, and
`save_file` with that path and content (when the write succeeds) writes the
byte-identical content `c` to the file at `p`. -/
theorem open_then_save_round_trip (s : Editor) (p c : String) (saveDialog : Option String)
    (fsWrite : String → String → Option IOErrorKind) (hw : fsWrite p c = Option.none) :
    ((((s.update (.FileOpened (.ok (p, c)))).1).update .Save).2 = Cmd.performSave (some p) c) ∧
    (save_file (some p) c saveDialog fsWrite = (.ok p, some ⟨p, c⟩)) := by
  refine ⟨rfl, ?_⟩
  simp [save_file, hw]

/-- Witness for C4 at a concrete state, path and content, with a filesystem
whose writes always succeed. -/
theorem open_then_save_round_trip_witness :
    ((fun _ _ => (Option.none : Option IOErrorKind)) "/tmp/x.txt" "hi" = Option.none) ∧
    (((((initialEditor.update (.FileOpened (.ok ("/tmp/x.txt", "hi")))).1).update .Save).2 =
        Cmd.performSave (some "/tmp/x.txt") "hi") ∧
     (save_file (some "/tmp/x.txt") "hi" Option.none (fun _ _ => Option.none) =
        (.ok "/tmp/x.txt", some ⟨"/tmp/x.txt", "hi"⟩))) :=
  ⟨rfl, open_then_save_round_trip initialEditor "/tmp/x.txt" "hi" Option.none
          (fun _ _ => Option.none) rfl⟩

/-- C5 (counterexample): the `New` event also changes `path` — starting from a
state whose path is `Some "/tmp/a.rs"`, processing `New` changes `path`
(to `None`), so `FileOpened(Ok)` and `FileSaved(Ok)` are not the only events
that ever change `path`. -/
theorem new_changes_path_counterexample :
    (({ initialEditor with path := some "/tmp/a.rs" } : Editor).update .New).1.path ≠
      ({ initialEditor with path := some "/tmp/a.rs" } : Editor).path := by
  decide

/-- C5 (amended): `path` changes only as a result of a successfully completed
load or save operation or of the `New` event: `Edit`, `Open`, `Save`,
`ThemeSelected`, `FileOpened(Err)` and `FileSaved(Err)` leave `path`
unchanged, `FileOpened(Ok(p, c))` and `FileSaved(Ok(p))` set it to `Some p`,
and `New` resets it to `None`; in particular it is never set pre-emptively
when `Open` or `Save` is issued. -/
theorem path_changed_only_by_completed_ops_or_new (s : Editor) :
    (∀ a, (s.update (.Edit a)).1.path = s.path) ∧
    ((s.update .Open).1.path = s.path) ∧
    ((s.update .Save).1.path = s.path) ∧
    (∀ t, (s.update (.ThemeSelected t)).1.path = s.path) ∧
    (∀ e, (s.update (.FileOpened (.error e))).1.path = s.path) ∧
    (∀ e, (s.update (.FileSaved (.error e))).1.path = s.path) ∧
    (∀ p c, (s.update (.FileOpened (.ok (p, c)))).1.path = some p) ∧
    (∀ p, (s.update (.FileSaved (.ok p))).1.path = some p) ∧
    ((s.update .New).1.path = Option.none) :=
  ⟨fun _ => rfl, rfl, rfl, fun _ => rfl, fun _ => rfl, fun _ => rfl,
   fun _ _ => rfl, fun _ => rfl, rfl⟩

/-- C6: for every prior editor state (whatever its error or buffer), processing
`New` sets `path` to `None` and the buffer to the empty buffer, whose text is
empty — prior edits are discarded. -/
theorem new_resets_path_and_buffer (s : Editor) :
    ((s.update .New).1.path = Option.none) ∧
    ((s.update .New).1.content = Content.new) ∧
    ((s.update .New).1.content.text = "") :=
  ⟨rfl, rfl, rfl⟩

/-- C7: `save_file` with no current path and a cancelled destination dialog
yields the `DialogClose` error (and writes nothing, so no I/O error can
arise), and processing the resulting `FileSaved(Err(DialogClose))` leaves
`path` and the buffer unchanged with `lastError = Some DialogClose`. -/
theorem save_cancelled_dialog (s : Editor) (content : String)
    (fsWrite : String → String → Option IOErrorKind) :
    (save_file Option.none content Option.none fsWrite =
      (.error .DialogClose, Option.none)) ∧
    ((s.update (.FileSaved (.error .DialogClose))).1.path = s.path) ∧
    ((s.update (.FileSaved (.error .DialogClose))).1.content = s.content) ∧
    ((s.update (.FileSaved (.error .DialogClose))).1.error = some .DialogClose) :=
  ⟨rfl, rfl, rfl, rfl⟩

/-- C8: the status-bar text is a pure projection of the state: with
`lastError = Some (IOFailed k)` it shows the failure description of `k`; with
`lastError = None` or `Some DialogClose` it shows the current path when one is
set and the `New File` placeholder otherwise — `DialogClose` is never rendered
as a filesystem failure. -/
theorem status_bar_pure_projection (s : Editor) :
    (∀ k, s.error = some (.IOFailed k) → statusText s = k.description) ∧
    ((s.error = Option.none ∨ s.error = some .DialogClose) →
      ((∀ p, s.path = some p → statusText s = p) ∧
       (s.path = Option.none → statusText s = "New File"))) := by
  constructor
  · intro k hk
    simp [statusText, hk]
  · intro he
    constructor
    · intro p hp
      rcases he with he | he <;> simp [statusText, he, hp]
    · intro hp
      rcases he with he | he <;> simp [statusText, he, hp]

/-- Witness for C8 at two concrete states: an `IOFailed NotFound` error shows
its description, and a `DialogClose` error with a set path shows the path. -/
theorem status_bar_pure_projection_witness :
    (statusText { initialEditor with error := some (.IOFailed .NotFound) } =
      IOErrorKind.description .NotFound) ∧
    (statusText { initialEditor with error := some .DialogClose, path := some "/tmp/a.rs" } =
      "/tmp/a.rs") :=
  ⟨(status_bar_pure_projection _).1 .NotFound rfl,
   ((status_bar_pure_projection _).2 (Or.inr rfl)).1 "/tmp/a.rs" rfl⟩

/-- C9: the language key handed to the highlighter is the current path's file
extension when one exists, and the fallback `rs` when `path` is `None` or has
no extension; the (spec-modelled) highlighter resolves an unrecognized key to
its fallback language and a recognized key to itself. -/
theorem highlight_key_extension_or_fallback (s : Editor)
    (recognized : List String) (fallback : String) :
    (s.path = Option.none → extensionKey s = "rs") ∧
    (∀ p, s.path = some p → extension p = Option.none → extensionKey s = "rs") ∧
    (∀ p e, s.path = some p → extension p = some e → extensionKey s = e) ∧
    (extensionKey s ∉ recognized →
      highlightLanguage recognized fallback (extensionKey s) = fallback) ∧
    (extensionKey s ∈ recognized →
      highlightLanguage recognized fallback (extensionKey s) = extensionKey s) := by
  refine ⟨?_, ?_, ?_, ?_, ?_⟩
  · intro h
    simp [extensionKey, h]
  · intro p hp hext
    simp [extensionKey, hp, hext]
  · intro p e hp hext
    simp [extensionKey, hp, hext]
  · intro h
    simp [highlightLanguage, h]
  · intro h
    simp [highlightLanguage, h]

/-- Witness for C9 at concrete states: no path gives key `rs`, a `.py` path
gives key `py`, and an unrecognized `.zzz` key resolves to the fallback. -/
theorem highlight_key_extension_or_fallback_witness :
    (extensionKey initialEditor = "rs") ∧
    (extensionKey { initialEditor with path := some "/tmp/main.py" } = "py") ∧
    (highlightLanguage ["rs", "py"] "rs"
      (extensionKey { initialEditor with path := some "/tmp/a.zzz" }) = "rs") :=
  ⟨(highlight_key_extension_or_fallback initialEditor [] "rs").1 rfl,
   (highlight_key_extension_or_fallback { initialEditor with path := some "/tmp/main.py" }
      [] "rs").2.2.1 "/tmp/main.py" "py" rfl (by decide),
   (highlight_key_extension_or_fallback { initialEditor with path := some "/tmp/a.zzz" }
      ["rs", "py"] "rs").2.2.2.1 (by decide)⟩

/-- C10: only the `Edit` event ever clears `lastError`: `New`,
`ThemeSelected`, `FileOpened(Ok)` and `FileSaved(Ok)` leave it unchanged, and
whenever a set error becomes `None` after processing a message, that message
was an `Edit`. -/
theorem only_edit_clears_last_error (s : Editor) :
    ((s.update .New).1.error = s.error) ∧
    (∀ t, (s.update (.ThemeSelected t)).1.error = s.error) ∧
    (∀ p c, (s.update (.FileOpened (.ok (p, c)))).1.error = s.error) ∧
    (∀ p, (s.update (.FileSaved (.ok p))).1.error = s.error) ∧
    (∀ m e, s.error = some e → (s.update m).1.error = Option.none →
      ∃ a, m = .Edit a) := by
  refine ⟨rfl, fun _ => rfl, fun _ _ => rfl, fun _ => rfl, ?_⟩
  intro m e he hn
  cases m with
  | Edit a => exact ⟨a, rfl⟩
  | Open => simp [Editor.update, he] at hn
  | Save => simp [Editor.update, he] at hn
  | New => simp [Editor.update, he] at hn
  | ThemeSelected t => simp [Editor.update, he] at hn
  | FileOpened r =>
      cases r with
      | ok pc => cases pc; simp [Editor.update, he] at hn
      | error e2 => simp [Editor.update] at hn
  | FileSaved r =>
      cases r with
      | ok p => simp [Editor.update, he] at hn
      | error e2 => simp [Editor.update] at hn

/-- Witness for C10 at a concrete state with a stale `DialogClose` error and a
concrete edit action clearing it. -/
theorem only_edit_clears_last_error_witness :
    ∃ a, Message.Edit Action.backspace = Message.Edit a :=
  (only_edit_clears_last_error { initialEditor with error := some .DialogClose }).2.2.2.2
    (Message.Edit .backspace) .DialogClose rfl rfl

end TextEditor
